import Mathlib

/-!
Verification of the Landmark-to-Overlay Geometry Engine of the `astra`
virtual jewelry try-on repository.

The engine (spread over `src/hooks/use-mediapipe-landmarks.ts`,
`src/lib/virtual-tryon.ts` and the unnamed service variants) is embedded
shallowly below.  Finite JavaScript numbers are modelled as exact
rationals (`ℚ`); the one place where IEEE special values (`Infinity`,
`NaN`) decide a property (`expandPolygon`, landmark coordinates fed to
the hand selector) uses an explicit `JSNum` type mirroring JavaScript
float semantics for the operations the code performs.  The purely
geometric inflation property, which involves a real square root, is
additionally stated over `ℝ`.
-/

/-- A 2D point with exact rational coordinates (a finite JS number pair). -/
structure Pt where
  x : ℚ
  y : ℚ
  deriving DecidableEq

/-- The accessory categories (`JewelryMetadata['type']` in `src/lib/types.ts`). -/
inductive JewelryType where
  | earrings
  | necklace
  | ring
  | bracelet
  deriving DecidableEq, Fintype

/-- Anatomical reference constants in millimetres, from
`REFERENCE_SIZES_MM` in `src/hooks/use-mediapipe-landmarks.ts` (the same
table appears in the unnamed service variant `src/unnamed/part_001`). -/
def REFERENCE_SIZES_MM : JewelryType → ℚ
  | .earrings => 15
  | .necklace => 120
  | .ring => 18
  | .bracelet => 55

/-- The divergent constant table of `src/lib/virtual-tryon.ts`
(`REFERENCE_SIZES_MM` there). -/
def REFERENCE_SIZES_MM_tryon : JewelryType → ℚ
  | .earrings => 20
  | .necklace => 50
  | .ring => 15
  | .bracelet => 50

/-- Minimum of a list of rationals; `Math.min(...xs)` for nonempty `xs`.
JavaScript returns `Infinity` on the empty spread, which has no rational
value; every call site in the engine passes a nonempty list. -/
def listMin : List ℚ → ℚ
  | [] => 0
  | x :: xs => xs.foldl min x

/-- Maximum of a list of rationals; `Math.max(...xs)` for nonempty `xs`. -/
def listMax : List ℚ → ℚ
  | [] => 0
  | x :: xs => xs.foldl max x

/-- The region record produced by `createRegionFromPoints`
(`src/hooks/use-mediapipe-landmarks.ts`): polygon vertices are kept as
exact values, while `width`, `height`, `minX`, `minY` go through
`Math.round`. -/
structure Region where
  points : List Pt
  width : ℤ
  height : ℤ
  minX : ℤ
  minY : ℤ
  deriving DecidableEq

/-- `createRegionFromPoints(points, paddingFactor)` from
`src/hooks/use-mediapipe-landmarks.ts` lines 290-324: axis-aligned
bounding box of the input points, scaled about its center by
`paddingFactor`. -/
def createRegionFromPoints (points : List Pt) (paddingFactor : ℚ) : Region :=
  let xs := points.map Pt.x
  let ys := points.map Pt.y
  let minX := listMin xs
  let maxX := listMax xs
  let minY := listMin ys
  let maxY := listMax ys
  let width := (maxX - minX) * paddingFactor
  let height := (maxY - minY) * paddingFactor
  let centerX := (minX + maxX) / 2
  let centerY := (minY + maxY) / 2
  let expandedMinX := centerX - width / 2
  let expandedMinY := centerY - height / 2
  { points :=
      [ ⟨expandedMinX, expandedMinY⟩
      , ⟨expandedMinX + width, expandedMinY⟩
      , ⟨expandedMinX + width, expandedMinY + height⟩
      , ⟨expandedMinX, expandedMinY + height⟩ ]
    width := round width
    height := round height
    minX := round expandedMinX
    minY := round expandedMinY }

/-- The landmark data record (`LandmarkData` in `src/lib/types.ts`)
produced by the extraction functions. -/
structure LandmarkData where
  position : Pt
  refWidth : ℚ
  region : Region
  imageWidth : ℚ
  imageHeight : ℚ
  deriving DecidableEq

/-- Body of the `earrings` branch of `extractFaceLandmarks` once the four
ear-region landmarks (indices 132, 135, 165, 150) are known present. -/
def earringData (a b c d : Pt) (imgWidth imgHeight : ℚ) : LandmarkData :=
  let p0 : Pt := ⟨a.x * imgWidth, a.y * imgHeight⟩
  let p1 : Pt := ⟨b.x * imgWidth, b.y * imgHeight⟩
  let p2 : Pt := ⟨c.x * imgWidth, c.y * imgHeight⟩
  let p3 : Pt := ⟨d.x * imgWidth, d.y * imgHeight⟩
  let refWidth := |p0.x - p2.x| * 1.2
  { position := ⟨(p0.x + p2.x) / 2, (p0.y + p2.y) / 2⟩
    refWidth := refWidth
    region := createRegionFromPoints [p0, p1, p2, p3] 1.5
    imageWidth := imgWidth
    imageHeight := imgHeight }

/-- Body of the `necklace` branch of `extractFaceLandmarks` once
landmarks 205, 425 and 152 are known present. -/
def necklaceData (a b c : Pt) (imgWidth imgHeight : ℚ) : LandmarkData :=
  let p1 : Pt := ⟨a.x * imgWidth, a.y * imgHeight⟩
  let p2 : Pt := ⟨b.x * imgWidth, b.y * imgHeight⟩
  let p3 : Pt := ⟨c.x * imgWidth, (c.y + 0.1) * imgHeight⟩
  let refWidth := |p1.x - p2.x|
  { position := ⟨c.x * imgWidth, c.y * imgHeight + refWidth * 0.2⟩
    refWidth := refWidth
    region := createRegionFromPoints [p1, p2, p3] 1.2
    imageWidth := imgWidth
    imageHeight := imgHeight }

/-- `extractFaceLandmarks` from `src/hooks/use-mediapipe-landmarks.ts`
lines 166-221.  Landmarks are a partial map from index to normalized
point; the `earrings` branch checks all four ear landmarks via
`earLandmarks.some(l => !l)` and returns `null` when one is missing, the
`necklace` branch dereferences its three landmarks directly (a missing
one throws in JS; modelled as `none` - no theorem below exercises it).
Categories other than `earrings`/`necklace` fall through to `null`. -/
def extractFaceLandmarks (l : ℕ → Option Pt) (t : JewelryType)
    (imgWidth imgHeight : ℚ) : Option LandmarkData :=
  match t with
  | .earrings =>
    match l 132, l 135, l 165, l 150 with
    | some a, some b, some c, some d => some (earringData a b c d imgWidth imgHeight)
    | _, _, _, _ => none
  | .necklace =>
    match l 205, l 425, l 152 with
    | some a, some b, some c => some (necklaceData a b c imgWidth imgHeight)
    | _, _, _ => none
  | _ => none

/-- Body of the `ring` branch of `extractHandLandmarks` for one accepted
finger candidate (base and mid joint landmarks). -/
def ringData (base mid : Pt) (imgWidth imgHeight : ℚ) : LandmarkData :=
  let pBase : Pt := ⟨base.x * imgWidth, base.y * imgHeight⟩
  let pMid : Pt := ⟨mid.x * imgWidth, mid.y * imgHeight⟩
  let refWidth := |pBase.x - pMid.x| * 2.5
  { position := ⟨(pBase.x + pMid.x) / 2, (pBase.y + pMid.y) / 2⟩
    refWidth := refWidth
    region := createRegionFromPoints [pBase, pMid] 3
    imageWidth := imgWidth
    imageHeight := imgHeight }

/-- Body of the `bracelet` branch of `extractHandLandmarks` once
landmarks 0, 5 and 17 are known present. -/
def braceletData (w1 w2 w3 : Pt) (imgWidth imgHeight : ℚ) : LandmarkData :=
  let p1 : Pt := ⟨w1.x * imgWidth, w1.y * imgHeight⟩
  let p2 : Pt := ⟨w2.x * imgWidth, w2.y * imgHeight⟩
  let p3 : Pt := ⟨w3.x * imgWidth, w3.y * imgHeight⟩
  let refWidth := |p2.x - p3.x|
  { position := ⟨p1.x, p1.y⟩
    refWidth := refWidth
    region := createRegionFromPoints
      [p2, p3, ⟨p3.x, p3.y + refWidth * 0.5⟩, ⟨p2.x, p2.y + refWidth * 0.5⟩] 1.2
    imageWidth := imgWidth
    imageHeight := imgHeight }

/-- `extractHandLandmarks` from `src/hooks/use-mediapipe-landmarks.ts`
lines 223-288.  The `ring` branch tries the finger candidates
`(13,14)`, `(9,10)`, `(5,6)` in that order and accepts the first pair
where both landmarks are present (`if (fingerBase && fingerMid)`); the
`bracelet` branch requires landmarks 0, 5 and 17. -/
def extractHandLandmarks (l : ℕ → Option Pt) (t : JewelryType)
    (imgWidth imgHeight : ℚ) : Option LandmarkData :=
  match t with
  | .ring =>
    match l 13, l 14 with
    | some base, some mid => some (ringData base mid imgWidth imgHeight)
    | _, _ =>
      match l 9, l 10 with
      | some base, some mid => some (ringData base mid imgWidth imgHeight)
      | _, _ =>
        match l 5, l 6 with
        | some base, some mid => some (ringData base mid imgWidth imgHeight)
        | _, _ => none
  | .bracelet =>
    match l 0, l 5, l 17 with
    | some w1, some w2, some w3 => some (braceletData w1 w2 w3 imgWidth imgHeight)
    | _, _, _ => none
  | _ => none

/-- Dispatch of `processImage` in `src/hooks/use-mediapipe-landmarks.ts`
lines 90-121: face categories go to `extractFaceLandmarks`, hand
categories to `extractHandLandmarks`. -/
def extractLandmarks (t : JewelryType) (l : ℕ → Option Pt)
    (imgWidth imgHeight : ℚ) : Option LandmarkData :=
  match t with
  | .earrings | .necklace => extractFaceLandmarks l t imgWidth imgHeight
  | .ring | .bracelet => extractHandLandmarks l t imgWidth imgHeight

/-- Accessory size metadata (`JewelryMetadata` in `src/lib/types.ts`):
category plus physical width and height in millimetres. -/
structure JewelryMetadata where
  type : JewelryType
  width : ℚ
  height : ℚ

/-- Result of `calculateScaling`: the exact target pixel sizes together
with the rounded dimensions and overlay position the code derives from
them. -/
structure ScalingResult where
  targetPixelWidth : ℚ
  targetPixelHeight : ℚ
  targetDimsWidth : ℤ
  targetDimsHeight : ℤ
  positionX : ℤ
  positionY : ℤ
  deriving DecidableEq

/-- `calculateScaling` from `src/unnamed/part_001` lines 99-124:
`REFERENCE_SIZES_MM[metadata.type] || metadata.width` falls back to the
accessory width when the table value is falsy (0),
`scaleFactor = width / referenceMmWidth`,
`targetPixelWidth = refWidth * scaleFactor`,
`targetPixelHeight = targetPixelWidth * (height / width)`, and the
dimensions and position are rounded. -/
def calculateScaling (landmarks : LandmarkData) (metadata : JewelryMetadata) :
    ScalingResult :=
  let referenceMmWidth :=
    if REFERENCE_SIZES_MM metadata.type = 0 then metadata.width
    else REFERENCE_SIZES_MM metadata.type
  let scaleFactor := metadata.width / referenceMmWidth
  let targetPixelWidth := landmarks.refWidth * scaleFactor
  let targetPixelHeight := targetPixelWidth * (metadata.height / metadata.width)
  let dimsW := round targetPixelWidth
  let dimsH := round targetPixelHeight
  { targetPixelWidth := targetPixelWidth
    targetPixelHeight := targetPixelHeight
    targetDimsWidth := dimsW
    targetDimsHeight := dimsH
    positionX := round (landmarks.position.x - (dimsW : ℚ) / 2)
    positionY := round (landmarks.position.y - (dimsH : ℚ) / 2) }

/-- Result of `getReference` in `src/lib/virtual-tryon.ts` lines 747-762. -/
structure ReferenceResult where
  refPx : ℚ
  x : ℤ
  y : ℤ
  deriving DecidableEq

/-- `getReference(landmarks, jewelryType)` from `src/lib/virtual-tryon.ts`
lines 747-762: passes `landmarks.refWidth` through unchanged as the
reference pixel width and rounds the overlay coordinates. -/
def getReference (landmarks : LandmarkData) : ReferenceResult :=
  { refPx := landmarks.refWidth
    x := round landmarks.position.x
    y := round landmarks.position.y }

/-- The target pixel width computed in `processVirtualTryOn`
(`src/lib/virtual-tryon.ts` lines 80-82):
`scale = width / REFERENCE_SIZES_MM[type]` (the virtual-tryon table),
`targetPx = Math.round(refPx * scale)`. -/
def tryonTargetPx (landmarks : LandmarkData) (metadata : JewelryMetadata) : ℤ :=
  round ((getReference landmarks).refPx *
    (metadata.width / REFERENCE_SIZES_MM_tryon metadata.type))

/-- The radial-gradient feathering profile record returned by
`getGradientType` in `src/lib/virtual-tryon.ts`. -/
structure GradientSpec where
  radius : ℚ
  innerStop : ℚ
  midStop : ℚ
  midOpacity : ℚ
  outerOpacity : ℚ
  blur : ℚ
  deriving DecidableEq

/-- `getGradientType(jewelryType)` from `src/lib/virtual-tryon.ts`
lines 484-528. -/
def getGradientType : JewelryType → GradientSpec
  | .necklace =>
    { radius := 45, innerStop := 60, midStop := 80
      midOpacity := 0.9, outerOpacity := 0.7, blur := 2 }
  | .earrings =>
    { radius := 35, innerStop := 50, midStop := 75
      midOpacity := 0.95, outerOpacity := 0.8, blur := 1.5 }
  | .ring =>
    { radius := 30, innerStop := 40, midStop := 70
      midOpacity := 0.9, outerOpacity := 0.75, blur := 1 }
  | .bracelet =>
    { radius := 40, innerStop := 55, midStop := 78
      midOpacity := 0.9, outerOpacity := 0.75, blur := 2 }

/-- Opacity of the inner gradient stop: the SVG template in
`generateRealisticMask` hard-codes `stop-opacity:1` at offsets 0% and
`innerStop`%. -/
def innerStopOpacity : ℚ := 1

/-!
### JavaScript float semantics

`JSNum` models the JavaScript number values the engine can actually
produce, with finite values kept as exact rationals and the IEEE special
values `Infinity`, `-Infinity` and `NaN` explicit.  The sign of zero is
not tracked (the engine never distinguishes `-0` from `0`).  `jsqrt` is
exact on perfect-square rationals - the only inputs any theorem below
evaluates it on - and approximates elsewhere, just as the float `sqrt`
does; its finiteness and sign behaviour is faithful on all inputs.
-/

/-- A JavaScript number: an exact finite rational, an infinity, or NaN. -/
inductive JSNum where
  | num (q : ℚ)
  | inf
  | ninf
  | nan
  deriving DecidableEq

namespace JSNum

/-- JavaScript addition. -/
def jadd : JSNum → JSNum → JSNum
  | nan, _ => nan
  | _, nan => nan
  | inf, ninf => nan
  | ninf, inf => nan
  | inf, _ => inf
  | _, inf => inf
  | ninf, _ => ninf
  | _, ninf => ninf
  | num a, num b => num (a + b)

/-- JavaScript negation. -/
def jneg : JSNum → JSNum
  | nan => nan
  | inf => ninf
  | ninf => inf
  | num a => num (-a)

/-- JavaScript subtraction. -/
def jsub (a b : JSNum) : JSNum := jadd a (jneg b)

/-- JavaScript multiplication. -/
def jmul : JSNum → JSNum → JSNum
  | nan, _ => nan
  | _, nan => nan
  | inf, inf => inf
  | inf, ninf => ninf
  | ninf, inf => ninf
  | ninf, ninf => inf
  | inf, num b => if b = 0 then nan else if 0 < b then inf else ninf
  | num a, inf => if a = 0 then nan else if 0 < a then inf else ninf
  | ninf, num b => if b = 0 then nan else if 0 < b then ninf else inf
  | num a, ninf => if a = 0 then nan else if 0 < a then ninf else inf
  | num a, num b => num (a * b)

/-- JavaScript division (division by zero yields a signed infinity,
`0/0` yields NaN). -/
def jdiv : JSNum → JSNum → JSNum
  | nan, _ => nan
  | _, nan => nan
  | inf, inf => nan
  | inf, ninf => nan
  | ninf, inf => nan
  | ninf, ninf => nan
  | num _, inf => num 0
  | num _, ninf => num 0
  | inf, num b => if 0 ≤ b then inf else ninf
  | ninf, num b => if 0 ≤ b then ninf else inf
  | num a, num b =>
    if b = 0 then (if a = 0 then nan else if 0 < a then inf else ninf)
    else num (a / b)

/-- Exact square root of a perfect-square rational (an approximation on
other rationals, as float sqrt is); always nonnegative and finite. -/
def ratSqrt (q : ℚ) : ℚ := (Nat.sqrt q.num.toNat : ℚ) / (Nat.sqrt q.den : ℚ)

/-- JavaScript `Math.sqrt`. -/
def jsqrt : JSNum → JSNum
  | nan => nan
  | inf => inf
  | ninf => nan
  | num q => if q < 0 then nan else num (ratSqrt q)

/-- JavaScript `Math.abs`. -/
def jabs : JSNum → JSNum
  | nan => nan
  | inf => inf
  | ninf => inf
  | num a => num |a|

/-- JavaScript `Math.round` (round half toward positive infinity, which
is what Mathlib's `round` computes on rationals). -/
def jround : JSNum → JSNum
  | nan => nan
  | inf => inf
  | ninf => ninf
  | num q => num ((round q : ℤ) : ℚ)

/-- JavaScript `Math.min` of two values (NaN propagates). -/
def jsMin : JSNum → JSNum → JSNum
  | nan, _ => nan
  | _, nan => nan
  | ninf, _ => ninf
  | _, ninf => ninf
  | inf, b => b
  | a, inf => a
  | num a, num b => num (min a b)

/-- JavaScript `Math.max` of two values (NaN propagates). -/
def jsMax : JSNum → JSNum → JSNum
  | nan, _ => nan
  | _, nan => nan
  | inf, _ => inf
  | _, inf => inf
  | ninf, b => b
  | a, ninf => a
  | num a, num b => num (max a b)

end JSNum

/-- A 2D point with JavaScript-number coordinates. -/
structure JPt where
  x : JSNum
  y : JSNum
  deriving DecidableEq

/-- `Math.min(...xs)`: `Infinity` on the empty spread. -/
def jsListMin : List JSNum → JSNum
  | [] => JSNum.inf
  | x :: xs => xs.foldl JSNum.jsMin x

/-- `Math.max(...xs)`: `-Infinity` on the empty spread. -/
def jsListMax : List JSNum → JSNum
  | [] => JSNum.ninf
  | x :: xs => xs.foldl JSNum.jsMax x

/-- Region record over JavaScript numbers. -/
structure RegionJS where
  points : List JPt
  width : JSNum
  height : JSNum
  minX : JSNum
  minY : JSNum
  deriving DecidableEq

/-- `createRegionFromPoints` under JavaScript float semantics (same
source lines as `createRegionFromPoints` above). -/
def createRegionFromPointsJS (points : List JPt) (paddingFactor : JSNum) :
    RegionJS :=
  let xs := points.map JPt.x
  let ys := points.map JPt.y
  let minX := jsListMin xs
  let maxX := jsListMax xs
  let minY := jsListMin ys
  let maxY := jsListMax ys
  let width := JSNum.jmul (JSNum.jsub maxX minX) paddingFactor
  let height := JSNum.jmul (JSNum.jsub maxY minY) paddingFactor
  let centerX := JSNum.jdiv (JSNum.jadd minX maxX) (JSNum.num 2)
  let centerY := JSNum.jdiv (JSNum.jadd minY maxY) (JSNum.num 2)
  let expandedMinX := JSNum.jsub centerX (JSNum.jdiv width (JSNum.num 2))
  let expandedMinY := JSNum.jsub centerY (JSNum.jdiv height (JSNum.num 2))
  { points :=
      [ ⟨expandedMinX, expandedMinY⟩
      , ⟨JSNum.jadd expandedMinX width, expandedMinY⟩
      , ⟨JSNum.jadd expandedMinX width, JSNum.jadd expandedMinY height⟩
      , ⟨expandedMinX, JSNum.jadd expandedMinY height⟩ ]
    width := JSNum.jround width
    height := JSNum.jround height
    minX := JSNum.jround expandedMinX
    minY := JSNum.jround expandedMinY }

/-- Landmark data record over JavaScript numbers. -/
structure LandmarkDataJS where
  position : JPt
  refWidth : JSNum
  region : RegionJS
  imageWidth : JSNum
  imageHeight : JSNum
  deriving DecidableEq

/-- Ring-candidate body of `extractHandLandmarks` under JavaScript float
semantics: `refWidth = Math.abs(pBase.x - pMid.x) * 2.5` and the
midpoint position, with no finiteness check on the coordinates. -/
def ringDataJS (base mid : JPt) (imgWidth imgHeight : JSNum) : LandmarkDataJS :=
  let pBase : JPt := ⟨JSNum.jmul base.x imgWidth, JSNum.jmul base.y imgHeight⟩
  let pMid : JPt := ⟨JSNum.jmul mid.x imgWidth, JSNum.jmul mid.y imgHeight⟩
  let refWidth := JSNum.jmul (JSNum.jabs (JSNum.jsub pBase.x pMid.x)) (JSNum.num 2.5)
  { position :=
      ⟨JSNum.jdiv (JSNum.jadd pBase.x pMid.x) (JSNum.num 2)
      , JSNum.jdiv (JSNum.jadd pBase.y pMid.y) (JSNum.num 2)⟩
    refWidth := refWidth
    region := createRegionFromPointsJS [pBase, pMid] (JSNum.num 3)
    imageWidth := imgWidth
    imageHeight := imgHeight }

/-- The `ring` branch of `extractHandLandmarks`
(`src/hooks/use-mediapipe-landmarks.ts` lines 229-257) under JavaScript
float semantics: the candidate pairs `(13,14)`, `(9,10)`, `(5,6)` are
tried in order and the guard `if (fingerBase && fingerMid)` tests only
that the landmark objects are present, never that their coordinates are
finite. -/
def extractHandLandmarksJS (l : ℕ → Option JPt) (t : JewelryType)
    (imgWidth imgHeight : JSNum) : Option LandmarkDataJS :=
  match t with
  | .ring =>
    match l 13, l 14 with
    | some base, some mid => some (ringDataJS base mid imgWidth imgHeight)
    | _, _ =>
      match l 9, l 10 with
      | some base, some mid => some (ringDataJS base mid imgWidth imgHeight)
      | _, _ =>
        match l 5, l 6 with
        | some base, some mid => some (ringDataJS base mid imgWidth imgHeight)
        | _, _ => none
  | _ => none

/-- `expandPolygon(points, padding)` from `src/lib/virtual-tryon.ts`
lines 552-572 (identical in `src/unnamed/part_000` lines 245-265) under
JavaScript float semantics: centroid of the vertices, then every vertex
is scaled from the centroid by `(distance + padding) / distance` and the
result rounded.  There is no special case for `distance = 0`. -/
def expandPolygonJS (points : List JPt) (padding : JSNum) : List JPt :=
  let n := JSNum.num (points.length : ℚ)
  let sum := points.foldl
    (fun acc p => (⟨JSNum.jadd acc.x p.x, JSNum.jadd acc.y p.y⟩ : JPt))
    ⟨JSNum.num 0, JSNum.num 0⟩
  let c : JPt := ⟨JSNum.jdiv sum.x n, JSNum.jdiv sum.y n⟩
  points.map (fun p =>
    let dx := JSNum.jsub p.x c.x
    let dy := JSNum.jsub p.y c.y
    let distance := JSNum.jsqrt (JSNum.jadd (JSNum.jmul dx dx) (JSNum.jmul dy dy))
    let factor := JSNum.jdiv (JSNum.jadd distance padding) distance
    ⟨JSNum.jround (JSNum.jadd c.x (JSNum.jmul dx factor))
    , JSNum.jround (JSNum.jadd c.y (JSNum.jmul dy factor))⟩)

/-!
### Real-number model of polygon inflation

`expandPolygon` computes a Euclidean distance via `Math.sqrt`, so its
geometric contract is stated over `ℝ` with the genuine square root.
-/

/-- A 2D point with real coordinates. -/
structure RPoint where
  x : ℝ
  y : ℝ

/-- Euclidean distance between two points, written with the same
`Math.sqrt(dx*dx + dy*dy)` shape the source uses. -/
noncomputable def ptDist (p q : RPoint) : ℝ :=
  Real.sqrt ((p.x - q.x) * (p.x - q.x) + (p.y - q.y) * (p.y - q.y))

/-- Vertex centroid of `expandPolygon`: coordinate-wise `reduce` sum
divided by the vertex count. -/
noncomputable def centroidR (points : List RPoint) : RPoint :=
  let sum := points.foldl (fun acc p => (⟨acc.x + p.x, acc.y + p.y⟩ : RPoint)) ⟨0, 0⟩
  ⟨sum.x / points.length, sum.y / points.length⟩

/-- The per-vertex body of `expandPolygon` before `Math.round`: scale the
centroid-to-vertex vector by `(distance + padding) / distance`. -/
noncomputable def expandVertex (c : RPoint) (padding : ℝ) (p : RPoint) : RPoint :=
  let dx := p.x - c.x
  let dy := p.y - c.y
  let distance := Real.sqrt (dx * dx + dy * dy)
  let factor := (distance + padding) / distance
  ⟨c.x + dx * factor, c.y + dy * factor⟩

/-- The `Math.round` applied to each output coordinate of `expandPolygon`. -/
noncomputable def roundPoint (p : RPoint) : RPoint :=
  ⟨((round p.x : ℤ) : ℝ), ((round p.y : ℤ) : ℝ)⟩

/-- `expandPolygon(points, padding)` from `src/lib/virtual-tryon.ts`
lines 552-572 over real arithmetic: every vertex is moved radially from
the vertex centroid and the result rounded to integer pixels. -/
noncomputable def expandPolygonR (points : List RPoint) (padding : ℝ) : List RPoint :=
  points.map (fun p => roundPoint (expandVertex (centroidR points) padding p))

/-!
### Concrete fixtures used by the witnesses and counterexamples
-/

/-- Doubling of a pixel point (camera-zoom by a factor of two). -/
def dblPt (p : Pt) : Pt := ⟨2 * p.x, 2 * p.y⟩

/-- Modelled from the spec: the ring candidate list in priority order -
ring finger, middle finger, index finger - returning the first pair
whose two landmarks are both present. -/
def firstRingPair (l : ℕ → Option Pt) : Option (Pt × Pt) :=
  match l 13, l 14 with
  | some base, some mid => some (base, mid)
  | _, _ =>
    match l 9, l 10 with
    | some base, some mid => some (base, mid)
    | _, _ =>
      match l 5, l 6 with
      | some base, some mid => some (base, mid)
      | _, _ => none

/-- Hand landmark set in which only the index-finger pair (5, 6) is
present. -/
def c3l : ℕ → Option Pt := fun n =>
  if n = 5 then some ⟨0.3, 0.6⟩ else if n = 6 then some ⟨0.35, 0.5⟩ else none

/-- Hand landmark set whose ring-finger pair shares the x coordinate,
producing a zero reference pixel width. -/
def c4l : ℕ → Option Pt := fun n =>
  if n = 13 then some ⟨0.5, 0.2⟩ else if n = 14 then some ⟨0.5, 0.4⟩ else none

/-- A degenerate polygon: the first vertex coincides with the centroid
of all three vertices. -/
def c5pts : List JPt :=
  [ ⟨JSNum.num 2, JSNum.num 0⟩
  , ⟨JSNum.num 0, JSNum.num 0⟩
  , ⟨JSNum.num 4, JSNum.num 0⟩ ]

/-- Hand landmark set whose ring-finger pair is present but carries NaN
coordinates. -/
def c7l : ℕ → Option JPt := fun n =>
  if n = 13 then some ⟨JSNum.nan, JSNum.nan⟩
  else if n = 14 then some ⟨JSNum.nan, JSNum.nan⟩
  else none

/-- Face landmark set placing ear landmarks 132 and 165 at pixel
(150, 200) and (200, 210) on a 1000x1000 image. -/
def c8l : ℕ → Option Pt := fun n =>
  if n = 132 then some ⟨0.15, 0.2⟩
  else if n = 135 then some ⟨0.18, 0.205⟩
  else if n = 165 then some ⟨0.2, 0.21⟩
  else if n = 150 then some ⟨0.19, 0.215⟩
  else none

/-- The landmark data extracted from `c8l` for earrings. -/
def c8data : LandmarkData :=
  earringData ⟨0.15, 0.2⟩ ⟨0.18, 0.205⟩ ⟨0.2, 0.21⟩ ⟨0.19, 0.215⟩ 1000 1000

/-- Face landmark set used to witness scale invariance. -/
def c2l : ℕ → Option Pt := fun n =>
  if n = 132 then some ⟨0.1, 0.2⟩
  else if n = 135 then some ⟨0.12, 0.22⟩
  else if n = 165 then some ⟨0.2, 0.25⟩
  else if n = 150 then some ⟨0.15, 0.3⟩
  else none

/-!
### Claims
-/

/-- C1: for every placement request the target pixel width equals the
reference measurement pixel width times the ratio of the accessory
physical width in mm to the per-category anatomical reference constant
in mm, and the target pixel height preserves the accessory physical
aspect ratio: targetPixelHeight = targetPixelWidth * (heightMm / widthMm). -/
theorem calculateScaling_formula (d : LandmarkData) (m : JewelryMetadata) :
    (calculateScaling d m).targetPixelWidth =
      d.refWidth * (m.width / REFERENCE_SIZES_MM m.type) ∧
    (calculateScaling d m).targetPixelHeight =
      (calculateScaling d m).targetPixelWidth * (m.height / m.width) := by
  obtain ⟨t, w, h⟩ := m
  constructor
  · cases t <;> simp [calculateScaling, REFERENCE_SIZES_MM]
  · rfl

/-- C9 counterexample: the necklace profile does not have strictly the
most blur - its blur radius is exactly tied with the bracelet profile. -/
theorem necklace_blur_not_strict_cex :
    (getGradientType .necklace).blur = (getGradientType .bracelet).blur ∧
    ¬ (getGradientType .bracelet).blur < (getGradientType .necklace).blur := by
  constructor
  · norm_num [getGradientType]
  · norm_num [getGradientType]

/-- C9 (amended): for every category the opacity stops are monotonically
non-increasing from the inner stop (full opacity) through the mid stop
to the outer stop; the necklace profile has the strictly largest
gradient radius and a blur radius at least as large as every other
category (tied with bracelet, so not strictly the largest); the ring
profile has the strictly smallest radius and the strictly least blur. -/
theorem feathering_profile_facts :
    (∀ t, (getGradientType t).midOpacity ≤ innerStopOpacity ∧
      (getGradientType t).outerOpacity ≤ (getGradientType t).midOpacity) ∧
    (∀ t, t ≠ JewelryType.necklace →
      (getGradientType t).radius < (getGradientType .necklace).radius) ∧
    (∀ t, (getGradientType t).blur ≤ (getGradientType .necklace).blur) ∧
    (∀ t, t ≠ JewelryType.ring →
      (getGradientType .ring).radius < (getGradientType t).radius) ∧
    (∀ t, t ≠ JewelryType.ring →
      (getGradientType .ring).blur < (getGradientType t).blur) := by
  refine ⟨?_, ?_, ?_, ?_, ?_⟩
  · intro t; cases t <;> constructor <;> norm_num [getGradientType, innerStopOpacity]
  · intro t h; cases t <;> simp_all [getGradientType] <;> norm_num
  · intro t; cases t <;> norm_num [getGradientType]
  · intro t h; cases t <;> simp_all [getGradientType] <;> norm_num
  · intro t h; cases t <;> simp_all [getGradientType] <;> norm_num

/-- C8: for earrings the reference pixel width is the x-distance between
ear landmarks 132 and 165 (in pixel space) times the empirical factor
1.2; with ear points at pixel (150, 200) and (200, 210) this gives
60 pixels, and with the 15 mm earring reference constant a 15 mm
accessory scales to a 60 px target width and a 30 mm accessory to 120 px. -/
theorem earring_scaling_formula :
    (∀ (l : ℕ → Option Pt) (a b c d : Pt) (W H : ℚ),
      l 132 = some a → l 135 = some b → l 165 = some c → l 150 = some d →
      extractFaceLandmarks l .earrings W H = some (earringData a b c d W H) ∧
      (earringData a b c d W H).refWidth = |a.x * W - c.x * W| * 1.2) ∧
    extractFaceLandmarks c8l .earrings 1000 1000 = some c8data ∧
    c8data.refWidth = 60 ∧
    (calculateScaling c8data ⟨.earrings, 15, 20⟩).targetPixelWidth = 60 ∧
    (calculateScaling c8data ⟨.earrings, 30, 40⟩).targetPixelWidth = 120 := by
  have habs : |(0.15 : ℚ) * 1000 - 0.2 * 1000| = 50 := by
    rw [show (0.15 : ℚ) * 1000 - 0.2 * 1000 = -50 by norm_num, abs_neg]
    norm_num
  refine ⟨?_, ?_, ?_, ?_, ?_⟩
  · intro l a b c d W H h132 h135 h165 h150
    refine ⟨?_, rfl⟩
    simp [extractFaceLandmarks, h132, h135, h165, h150]
  · simp [extractFaceLandmarks, c8l, c8data]
  · show (earringData ⟨0.15, 0.2⟩ ⟨0.18, 0.205⟩ ⟨0.2, 0.21⟩ ⟨0.19, 0.215⟩ 1000 1000).refWidth = 60
    simp only [earringData]
    rw [habs]
    norm_num
  · show (calculateScaling c8data ⟨.earrings, 15, 20⟩).targetPixelWidth = 60
    simp only [calculateScaling, c8data, earringData, REFERENCE_SIZES_MM]
    rw [habs]
    norm_num
  · show (calculateScaling c8data ⟨.earrings, 30, 40⟩).targetPixelWidth = 120
    simp only [calculateScaling, c8data, earringData, REFERENCE_SIZES_MM]
    rw [habs]
    norm_num

/-- C8 witness: the general earring formula of `earring_scaling_formula`
applied to the concrete landmark set `c8l`. -/
theorem earring_scaling_formula_witness :
    extractFaceLandmarks c8l .earrings 1000 1000 =
      some (earringData ⟨0.15, 0.2⟩ ⟨0.18, 0.205⟩ ⟨0.2, 0.21⟩ ⟨0.19, 0.215⟩ 1000 1000) ∧
    (earringData ⟨0.15, 0.2⟩ ⟨0.18, 0.205⟩ ⟨0.2, 0.21⟩ ⟨0.19, 0.215⟩ 1000 1000).refWidth =
      |(0.15 : ℚ) * 1000 - (0.2 : ℚ) * 1000| * 1.2 :=
  earring_scaling_formula.1 c8l _ _ _ _ 1000 1000 rfl rfl rfl rfl

/-- The ring branch of the hand selector is exactly first-present-pair
selection over the ordered candidate list. -/
lemma extractHand_ring_firstPair (l : ℕ → Option Pt) (W H : ℚ) :
    extractHandLandmarks l .ring W H =
      (firstRingPair l).map (fun pr => ringData pr.1 pr.2 W H) := by
  simp only [extractHandLandmarks, firstRingPair]
  cases l 13 <;> cases l 14 <;> cases l 9 <;> cases l 10 <;> cases l 5 <;> cases l 6 <;> rfl

/-- C3: for rings the candidate landmark pairs are tried in the fixed
priority order ring finger (13, 14), middle finger (9, 10), index finger
(5, 6), and the first pair whose two landmarks are both present is
selected; in particular a landmark set in which only the index-finger
pair is present selects the index-finger candidate and succeeds instead
of failing with a missing-anatomy result. -/
theorem ring_fallback_priority :
    (∀ (l : ℕ → Option Pt) (W H : ℚ),
      extractHandLandmarks l .ring W H =
        (firstRingPair l).map (fun pr => ringData pr.1 pr.2 W H)) ∧
    (∀ (l : ℕ → Option Pt) (W H : ℚ) (b m : Pt),
      (l 13 = none ∨ l 14 = none) → (l 9 = none ∨ l 10 = none) →
      l 5 = some b → l 6 = some m →
      extractHandLandmarks l .ring W H = some (ringData b m W H)) := by
  constructor
  · exact extractHand_ring_firstPair
  · intro l W H b m h1 h2 h5 h6
    cases h13 : l 13 <;> cases h14 : l 14 <;> cases h9 : l 9 <;> cases h10 : l 10 <;>
      simp_all [extractHandLandmarks]

/-- C3 witness: the index-only landmark set `c3l` succeeds with the
index-finger candidate. -/
theorem ring_fallback_priority_witness :
    extractHandLandmarks c3l .ring 100 100 =
      some (ringData ⟨0.3, 0.6⟩ ⟨0.35, 0.5⟩ 100 100) :=
  ring_fallback_priority.2 c3l 100 100 _ _ (Or.inl rfl) (Or.inl rfl) rfl rfl

/-- C4 counterexample: a ring request whose two reference landmarks share
the x coordinate succeeds with a reference pixel width of zero - the
zero width is not fatal, is returned by the selector, is passed through
`getReference`, and propagates into scale calculation (target width 0),
contradicting the claim that a zero reference width always fails the
request. -/
theorem zero_refWidth_accepted_cex :
    extractHandLandmarks c4l .ring 100 100 =
      some (ringData ⟨0.5, 0.2⟩ ⟨0.5, 0.4⟩ 100 100) ∧
    (ringData ⟨0.5, 0.2⟩ ⟨0.5, 0.4⟩ 100 100).refWidth = 0 ∧
    (getReference (ringData ⟨0.5, 0.2⟩ ⟨0.5, 0.4⟩ 100 100)).refPx = 0 ∧
    (calculateScaling (ringData ⟨0.5, 0.2⟩ ⟨0.5, 0.4⟩ 100 100)
      ⟨.ring, 18, 18⟩).targetPixelWidth = 0 := by
  refine ⟨?_, ?_, ?_, ?_⟩
  · simp [extractHandLandmarks, c4l]
  · norm_num [ringData]
  · norm_num [getReference, ringData]
  · norm_num [calculateScaling, getReference, ringData, REFERENCE_SIZES_MM]

/-- C4 (amended): a computed reference pixel width of zero is not
rejected anywhere - whenever the selected ring landmark pair shares its
x coordinate the selector returns a measurement with refWidth 0,
`getReference` passes it through, and the scale calculation yields
target pixel width 0 for every accessory metadata; no error path exists
for degenerate reference geometry. -/
theorem zero_refWidth_propagates (l : ℕ → Option Pt) (b m : Pt) (W H : ℚ)
    (hb : l 13 = some b) (hm : l 14 = some m) (hx : b.x = m.x) :
    extractHandLandmarks l .ring W H = some (ringData b m W H) ∧
    (ringData b m W H).refWidth = 0 ∧
    (getReference (ringData b m W H)).refPx = 0 ∧
    ∀ meta : JewelryMetadata,
      (calculateScaling (ringData b m W H) meta).targetPixelWidth = 0 := by
  have h0 : (ringData b m W H).refWidth = 0 := by
    simp [ringData, hx]
  refine ⟨?_, h0, ?_, ?_⟩
  · simp [extractHandLandmarks, hb, hm]
  · simp [getReference, h0]
  · intro meta
    simp [calculateScaling, h0]

/-- C4 witness: `zero_refWidth_propagates` applied to the concrete
degenerate landmark set `c4l`. -/
theorem zero_refWidth_propagates_witness :
    extractHandLandmarks c4l .ring 100 100 =
      some (ringData ⟨0.5, 0.2⟩ ⟨0.5, 0.4⟩ 100 100) ∧
    (ringData ⟨0.5, 0.2⟩ ⟨0.5, 0.4⟩ 100 100).refWidth = 0 ∧
    (getReference (ringData ⟨0.5, 0.2⟩ ⟨0.5, 0.4⟩ 100 100)).refPx = 0 ∧
    ∀ meta : JewelryMetadata,
      (calculateScaling (ringData ⟨0.5, 0.2⟩ ⟨0.5, 0.4⟩ 100 100) meta).targetPixelWidth = 0 :=
  zero_refWidth_propagates c4l ⟨0.5, 0.2⟩ ⟨0.5, 0.4⟩ 100 100 rfl rfl rfl

/-- Exact square root of the rational 0. -/
lemma ratSqrt_zero : JSNum.ratSqrt 0 = 0 := by
  simp [JSNum.ratSqrt]

/-- Exact square root of the rational 4. -/
lemma ratSqrt_four : JSNum.ratSqrt 4 = 2 := by
  have h : Nat.sqrt 4 = 2 := by
    rw [show (4 : ℕ) = 2 * 2 from rfl, Nat.sqrt_eq]
  simp [JSNum.ratSqrt, h]

/-- C5 counterexample: `expandPolygon` has no special case for a vertex
at the centroid.  On the polygon `c5pts`, whose first vertex (2, 0) is
exactly the centroid, padding 5 divides `(0 + 5)` by distance 0 giving
Infinity, and `0 * Infinity` makes both output coordinates NaN - a
non-finite output, contradicting the claimed guard. -/
theorem expandPolygon_nan_cex :
    expandPolygonJS c5pts (JSNum.num 5) =
      [ ⟨JSNum.nan, JSNum.nan⟩
      , ⟨JSNum.num (-5), JSNum.num 0⟩
      , ⟨JSNum.num 9, JSNum.num 0⟩ ] := by
  norm_num [expandPolygonJS, c5pts, JSNum.jadd, JSNum.jsub, JSNum.jneg, JSNum.jmul,
    JSNum.jdiv, JSNum.jsqrt, JSNum.jround, ratSqrt_zero, ratSqrt_four, round_eq]

/-- C5 (amended): the implementation applies the factor
`(distance + padding) / distance` unconditionally, with no special case
for a vertex at the centroid; for every positive padding, a vertex that
coincides with the vertex centroid is mapped to NaN coordinates (the
division by zero yields Infinity and `0 * Infinity` is NaN), so
inflation is finite only on polygons with no vertex at the centroid. -/
theorem expandPolygon_no_special_case (p : ℚ) (hp : 0 < p) :
    (expandPolygonJS c5pts (JSNum.num p)).head? = some ⟨JSNum.nan, JSNum.nan⟩ := by
  have hne : p ≠ 0 := ne_of_gt hp
  norm_num [expandPolygonJS, c5pts, JSNum.jadd, JSNum.jsub, JSNum.jneg, JSNum.jmul,
    JSNum.jdiv, JSNum.jsqrt, JSNum.jround, ratSqrt_zero, hne, hp]

/-- C5 witness: `expandPolygon_no_special_case` at padding 5. -/
theorem expandPolygon_no_special_case_witness :
    (expandPolygonJS c5pts (JSNum.num 5)).head? = some ⟨JSNum.nan, JSNum.nan⟩ :=
  expandPolygon_no_special_case 5 (by norm_num)

/-- C7 counterexample: a landmark set whose ring-finger pair is present
but has NaN coordinates is accepted by the selector, which returns a
reference measurement whose pixel width is NaN instead of a
missing-anatomy failure. -/
theorem nan_pair_accepted_cex :
    (extractHandLandmarksJS c7l .ring (JSNum.num 100) (JSNum.num 100)).map
      LandmarkDataJS.refWidth = some JSNum.nan := by
  simp [extractHandLandmarksJS, c7l, ringDataJS, JSNum.jmul, JSNum.jsub, JSNum.jneg,
    JSNum.jadd, JSNum.jabs]

/-- C7 (amended): the ring selector checks only that both landmarks of a
candidate pair are present, never that their coordinates are finite: it
returns the missing-anatomy failure (null) exactly when every candidate
pair has an absent landmark, and any present pair - including one with
NaN coordinates - is accepted and produces the measurement computed from
it. -/
theorem hand_selector_presence_only :
    (∀ (l : ℕ → Option JPt) (W H : JSNum),
      (l 13 = none ∨ l 14 = none) → (l 9 = none ∨ l 10 = none) →
      (l 5 = none ∨ l 6 = none) →
      extractHandLandmarksJS l .ring W H = none) ∧
    (∀ (l : ℕ → Option JPt) (W H : JSNum) (b m : JPt),
      l 13 = some b → l 14 = some m →
      extractHandLandmarksJS l .ring W H = some (ringDataJS b m W H)) := by
  constructor
  · intro l W H h1 h2 h3
    cases h13 : l 13 <;> cases h14 : l 14 <;> cases h9 : l 9 <;> cases h10 : l 10 <;>
      cases h5 : l 5 <;> cases h6 : l 6 <;> simp_all [extractHandLandmarksJS]
  · intro l W H b m hb hm
    simp [extractHandLandmarksJS, hb, hm]

/-- C7 witness: `hand_selector_presence_only` applied to the NaN-pair
landmark set `c7l`. -/
theorem hand_selector_presence_only_witness :
    extractHandLandmarksJS c7l .ring (JSNum.num 100) (JSNum.num 100) =
      some (ringDataJS ⟨JSNum.nan, JSNum.nan⟩ ⟨JSNum.nan, JSNum.nan⟩
        (JSNum.num 100) (JSNum.num 100)) :=
  hand_selector_presence_only.2 c7l _ _ _ _ rfl rfl

/-- Scaling the inputs of `listMin` by 2 scales the minimum by 2. -/
lemma listMin_double (xs : List ℚ) : listMin (xs.map (fun q => 2 * q)) = 2 * listMin xs := by
  cases xs with
  | nil => simp [listMin]
  | cons x xs =>
    simp only [listMin, List.map]
    induction xs generalizing x with
    | nil => simp
    | cons y ys ih =>
      simp only [List.map, List.foldl]
      rw [← mul_min_of_nonneg x y (by norm_num : (0:ℚ) ≤ 2)]
      exact ih (min x y)

/-- Scaling the inputs of `listMax` by 2 scales the maximum by 2. -/
lemma listMax_double (xs : List ℚ) : listMax (xs.map (fun q => 2 * q)) = 2 * listMax xs := by
  cases xs with
  | nil => simp [listMax]
  | cons x xs =>
    simp only [listMax, List.map]
    induction xs generalizing x with
    | nil => simp
    | cons y ys ih =>
      simp only [List.map, List.foldl]
      rw [← mul_max_of_nonneg x y (by norm_num : (0:ℚ) ≤ 2)]
      exact ih (max x y)

/-- Doubling every input point doubles every polygon vertex of the
region built by `createRegionFromPoints`. -/
lemma createRegion_points_double (pts : List Pt) (f : ℚ) :
    (createRegionFromPoints (pts.map dblPt) f).points =
      (createRegionFromPoints pts f).points.map dblPt := by
  have hx : (pts.map dblPt).map Pt.x = (pts.map Pt.x).map (fun q => 2 * q) := by
    simp only [List.map_map]
    rfl
  have hy : (pts.map dblPt).map Pt.y = (pts.map Pt.y).map (fun q => 2 * q) := by
    simp only [List.map_map]
    rfl
  simp only [createRegionFromPoints, hx, hy, listMin_double, listMax_double, List.map,
    dblPt, Pt.mk.injEq, List.cons.injEq, and_true]
  and_intros <;> ring

/-- Doubling the reference width doubles both exact target pixel sizes. -/
lemma calculateScaling_double (d d2 : LandmarkData) (h : d2.refWidth = 2 * d.refWidth)
    (m : JewelryMetadata) :
    (calculateScaling d2 m).targetPixelWidth = 2 * (calculateScaling d m).targetPixelWidth ∧
    (calculateScaling d2 m).targetPixelHeight = 2 * (calculateScaling d m).targetPixelHeight := by
  constructor <;> simp [calculateScaling, h] <;> ring

/-- Absolute difference scales linearly under doubling. -/
lemma abs_double (u v : ℚ) : |2 * u - 2 * v| = 2 * |u - v| := by
  rw [show 2 * u - 2 * v = 2 * (u - v) from by ring, abs_mul, abs_two]

/-- Doubling the image dimensions doubles every pixel output of the
earring extraction body. -/
lemma earringData_double (a b c e : Pt) (W H : ℚ) :
    (earringData a b c e (2 * W) (2 * H)).refWidth = 2 * (earringData a b c e W H).refWidth ∧
    (earringData a b c e (2 * W) (2 * H)).position = dblPt (earringData a b c e W H).position ∧
    (earringData a b c e (2 * W) (2 * H)).region.points =
      (earringData a b c e W H).region.points.map dblPt := by
  have habs : |a.x * (2 * W) - c.x * (2 * W)| = 2 * |a.x * W - c.x * W| := by
    rw [show a.x * (2 * W) = 2 * (a.x * W) from by ring,
      show c.x * (2 * W) = 2 * (c.x * W) from by ring, abs_double]
  refine ⟨?_, ?_, ?_⟩
  · simp only [earringData, habs]
    ring
  · simp only [earringData, dblPt, Pt.mk.injEq]
    constructor <;> ring
  · simp only [earringData]
    rw [show ([⟨a.x * (2 * W), a.y * (2 * H)⟩, ⟨b.x * (2 * W), b.y * (2 * H)⟩,
        ⟨c.x * (2 * W), c.y * (2 * H)⟩, ⟨e.x * (2 * W), e.y * (2 * H)⟩] : List Pt) =
        ([⟨a.x * W, a.y * H⟩, ⟨b.x * W, b.y * H⟩, ⟨c.x * W, c.y * H⟩,
          ⟨e.x * W, e.y * H⟩] : List Pt).map dblPt from by
      simp only [List.map, dblPt, Pt.mk.injEq, List.cons.injEq, and_true]
      and_intros <;> ring]
    exact createRegion_points_double _ _

/-- Doubling the image dimensions doubles every pixel output of the
necklace extraction body. -/
lemma necklaceData_double (a b c : Pt) (W H : ℚ) :
    (necklaceData a b c (2 * W) (2 * H)).refWidth = 2 * (necklaceData a b c W H).refWidth ∧
    (necklaceData a b c (2 * W) (2 * H)).position = dblPt (necklaceData a b c W H).position ∧
    (necklaceData a b c (2 * W) (2 * H)).region.points =
      (necklaceData a b c W H).region.points.map dblPt := by
  have habs : |a.x * (2 * W) - b.x * (2 * W)| = 2 * |a.x * W - b.x * W| := by
    rw [show a.x * (2 * W) = 2 * (a.x * W) from by ring,
      show b.x * (2 * W) = 2 * (b.x * W) from by ring, abs_double]
  refine ⟨?_, ?_, ?_⟩
  · simp only [necklaceData, habs]
  · simp only [necklaceData, dblPt, Pt.mk.injEq, habs]
    constructor <;> ring
  · simp only [necklaceData]
    rw [show ([⟨a.x * (2 * W), a.y * (2 * H)⟩, ⟨b.x * (2 * W), b.y * (2 * H)⟩,
        ⟨c.x * (2 * W), (c.y + 0.1) * (2 * H)⟩] : List Pt) =
        ([⟨a.x * W, a.y * H⟩, ⟨b.x * W, b.y * H⟩,
          ⟨c.x * W, (c.y + 0.1) * H⟩] : List Pt).map dblPt from by
      simp only [List.map, dblPt, Pt.mk.injEq, List.cons.injEq, and_true]
      and_intros <;> ring]
    exact createRegion_points_double _ _

/-- Doubling the image dimensions doubles every pixel output of the
ring extraction body. -/
lemma ringData_double (b m : Pt) (W H : ℚ) :
    (ringData b m (2 * W) (2 * H)).refWidth = 2 * (ringData b m W H).refWidth ∧
    (ringData b m (2 * W) (2 * H)).position = dblPt (ringData b m W H).position ∧
    (ringData b m (2 * W) (2 * H)).region.points =
      (ringData b m W H).region.points.map dblPt := by
  have habs : |b.x * (2 * W) - m.x * (2 * W)| = 2 * |b.x * W - m.x * W| := by
    rw [show b.x * (2 * W) = 2 * (b.x * W) from by ring,
      show m.x * (2 * W) = 2 * (m.x * W) from by ring, abs_double]
  refine ⟨?_, ?_, ?_⟩
  · simp only [ringData, habs]
    ring
  · simp only [ringData, dblPt, Pt.mk.injEq]
    constructor <;> ring
  · simp only [ringData]
    rw [show ([⟨b.x * (2 * W), b.y * (2 * H)⟩, ⟨m.x * (2 * W), m.y * (2 * H)⟩] : List Pt) =
        ([⟨b.x * W, b.y * H⟩, ⟨m.x * W, m.y * H⟩] : List Pt).map dblPt from by
      simp only [List.map, dblPt, Pt.mk.injEq, List.cons.injEq, and_true]
      and_intros <;> ring]
    exact createRegion_points_double _ _

/-- Doubling the image dimensions doubles every pixel output of the
bracelet extraction body. -/
lemma braceletData_double (u v w : Pt) (W H : ℚ) :
    (braceletData u v w (2 * W) (2 * H)).refWidth = 2 * (braceletData u v w W H).refWidth ∧
    (braceletData u v w (2 * W) (2 * H)).position = dblPt (braceletData u v w W H).position ∧
    (braceletData u v w (2 * W) (2 * H)).region.points =
      (braceletData u v w W H).region.points.map dblPt := by
  have habs : |v.x * (2 * W) - w.x * (2 * W)| = 2 * |v.x * W - w.x * W| := by
    rw [show v.x * (2 * W) = 2 * (v.x * W) from by ring,
      show w.x * (2 * W) = 2 * (w.x * W) from by ring, abs_double]
  refine ⟨?_, ?_, ?_⟩
  · simp only [braceletData, habs]
  · simp only [braceletData, dblPt, Pt.mk.injEq]
    constructor <;> ring
  · simp only [braceletData, habs]
    rw [show ([⟨v.x * (2 * W), v.y * (2 * H)⟩, ⟨w.x * (2 * W), w.y * (2 * H)⟩,
        ⟨w.x * (2 * W), w.y * (2 * H) + 2 * |v.x * W - w.x * W| * 0.5⟩,
        ⟨v.x * (2 * W), v.y * (2 * H) + 2 * |v.x * W - w.x * W| * 0.5⟩] : List Pt) =
        ([⟨v.x * W, v.y * H⟩, ⟨w.x * W, w.y * H⟩,
          ⟨w.x * W, w.y * H + |v.x * W - w.x * W| * 0.5⟩,
          ⟨v.x * W, v.y * H + |v.x * W - w.x * W| * 0.5⟩] : List Pt).map dblPt from by
      simp only [List.map, dblPt, Pt.mk.injEq, List.cons.injEq, and_true]
      and_intros <;> ring]
    exact createRegion_points_double _ _

/-- Inversion of the earring branch: success determines the landmarks. -/
lemma extractFace_earrings_inv (l : ℕ → Option Pt) (W H : ℚ) (d : LandmarkData)
    (h : extractFaceLandmarks l .earrings W H = some d) :
    ∃ a b c e, l 132 = some a ∧ l 135 = some b ∧ l 165 = some c ∧ l 150 = some e ∧
      d = earringData a b c e W H := by
  rcases h132 : l 132 with _ | a <;> rcases h135 : l 135 with _ | b <;>
    rcases h165 : l 165 with _ | c <;> rcases h150 : l 150 with _ | e <;>
    simp_all [extractFaceLandmarks]

/-- Inversion of the necklace branch: success determines the landmarks. -/
lemma extractFace_necklace_inv (l : ℕ → Option Pt) (W H : ℚ) (d : LandmarkData)
    (h : extractFaceLandmarks l .necklace W H = some d) :
    ∃ a b c, l 205 = some a ∧ l 425 = some b ∧ l 152 = some c ∧
      d = necklaceData a b c W H := by
  rcases h205 : l 205 with _ | a <;> rcases h425 : l 425 with _ | b <;>
    rcases h152 : l 152 with _ | c <;> simp_all [extractFaceLandmarks]

/-- Inversion of the bracelet branch: success determines the landmarks. -/
lemma extractHand_bracelet_inv (l : ℕ → Option Pt) (W H : ℚ) (d : LandmarkData)
    (h : extractHandLandmarks l .bracelet W H = some d) :
    ∃ u v w, l 0 = some u ∧ l 5 = some v ∧ l 17 = some w ∧
      d = braceletData u v w W H := by
  rcases h0 : l 0 with _ | u <;> rcases h5 : l 5 with _ | v <;>
    rcases h17 : l 17 with _ | w <;> simp_all [extractHandLandmarks]

/-- C2: doubling the image pixel width and height while keeping the
normalized landmark coordinates fixed doubles every pixel-space output
of the engine, exactly: extraction still succeeds, the reference pixel
width, the anchor position and every polygon vertex coordinate double,
and both exact target pixel sizes of the scale calculation double, for
every category. -/
theorem scale_invariance_double :
    ∀ (t : JewelryType) (l : ℕ → Option Pt) (W H : ℚ) (d : LandmarkData),
      extractLandmarks t l W H = some d →
      (extractLandmarks t l (2 * W) (2 * H)).isSome = true ∧
      ∀ d2, extractLandmarks t l (2 * W) (2 * H) = some d2 →
        d2.refWidth = 2 * d.refWidth ∧
        d2.position = dblPt d.position ∧
        d2.region.points = d.region.points.map dblPt ∧
        ∀ m : JewelryMetadata,
          (calculateScaling d2 m).targetPixelWidth
            = 2 * (calculateScaling d m).targetPixelWidth ∧
          (calculateScaling d2 m).targetPixelHeight
            = 2 * (calculateScaling d m).targetPixelHeight := by
  intro t l W H d h
  cases t with
  | earrings =>
    obtain ⟨a, b, c, e, h1, h2, h3, h4, rfl⟩ :=
      extractFace_earrings_inv l W H d (by simpa [extractLandmarks] using h)
    have hsome : extractFaceLandmarks l .earrings (2 * W) (2 * H) =
        some (earringData a b c e (2 * W) (2 * H)) := by
      simp [extractFaceLandmarks, h1, h2, h3, h4]
    refine ⟨by simp [extractLandmarks, hsome], ?_⟩
    intro d2 h5
    have hd2 : d2 = earringData a b c e (2 * W) (2 * H) := by
      simp only [extractLandmarks] at h5
      rw [hsome] at h5
      exact (Option.some.injEq _ _ ▸ h5).symm
    subst hd2
    obtain ⟨hr, hp, hpts⟩ := earringData_double a b c e W H
    exact ⟨hr, hp, hpts, fun m => calculateScaling_double _ _ hr m⟩
  | necklace =>
    obtain ⟨a, b, c, h1, h2, h3, rfl⟩ :=
      extractFace_necklace_inv l W H d (by simpa [extractLandmarks] using h)
    have hsome : extractFaceLandmarks l .necklace (2 * W) (2 * H) =
        some (necklaceData a b c (2 * W) (2 * H)) := by
      simp [extractFaceLandmarks, h1, h2, h3]
    refine ⟨by simp [extractLandmarks, hsome], ?_⟩
    intro d2 h5
    have hd2 : d2 = necklaceData a b c (2 * W) (2 * H) := by
      simp only [extractLandmarks] at h5
      rw [hsome] at h5
      exact (Option.some.injEq _ _ ▸ h5).symm
    subst hd2
    obtain ⟨hr, hp, hpts⟩ := necklaceData_double a b c W H
    exact ⟨hr, hp, hpts, fun m => calculateScaling_double _ _ hr m⟩
  | ring =>
    simp only [extractLandmarks] at h ⊢
    rw [extractHand_ring_firstPair] at h
    rcases hp : firstRingPair l with _ | pr
    · rw [hp] at h
      exact Option.noConfusion h
    · rw [hp] at h
      have hd := Option.some.inj h
      subst hd
      refine ⟨?_, ?_⟩
      · rw [extractHand_ring_firstPair, hp]
        simp
      · intro d2 h5
        rw [extractHand_ring_firstPair, hp] at h5
        have hd2 := Option.some.inj h5
        subst hd2
        obtain ⟨hr, hpo, hpts⟩ := ringData_double pr.1 pr.2 W H
        exact ⟨hr, hpo, hpts, fun m => calculateScaling_double _ _ hr m⟩
  | bracelet =>
    obtain ⟨u, v, w, h1, h2, h3, rfl⟩ :=
      extractHand_bracelet_inv l W H d (by simpa [extractLandmarks] using h)
    have hsome : extractHandLandmarks l .bracelet (2 * W) (2 * H) =
        some (braceletData u v w (2 * W) (2 * H)) := by
      simp [extractHandLandmarks, h1, h2, h3]
    refine ⟨by simp [extractLandmarks, hsome], ?_⟩
    intro d2 h5
    have hd2 : d2 = braceletData u v w (2 * W) (2 * H) := by
      simp only [extractLandmarks] at h5
      rw [hsome] at h5
      exact (Option.some.injEq _ _ ▸ h5).symm
    subst hd2
    obtain ⟨hr, hpo, hpts⟩ := braceletData_double u v w W H
    exact ⟨hr, hpo, hpts, fun m => calculateScaling_double _ _ hr m⟩

/-- C2 witness: `scale_invariance_double` applied to the concrete
earrings landmark set `c2l` on a 100x100 image. -/
theorem scale_invariance_double_witness :
    (extractLandmarks .earrings c2l (2 * 100) (2 * 100)).isSome = true ∧
    (earringData ⟨0.1, 0.2⟩ ⟨0.12, 0.22⟩ ⟨0.2, 0.25⟩ ⟨0.15, 0.3⟩ (2 * 100) (2 * 100)).refWidth =
      2 * (earringData ⟨0.1, 0.2⟩ ⟨0.12, 0.22⟩ ⟨0.2, 0.25⟩ ⟨0.15, 0.3⟩ 100 100).refWidth := by
  have h := scale_invariance_double .earrings c2l 100 100
    (earringData ⟨0.1, 0.2⟩ ⟨0.12, 0.22⟩ ⟨0.2, 0.25⟩ ⟨0.15, 0.3⟩ 100 100) rfl
  exact ⟨h.1, (h.2 _ rfl).1⟩

/-- C10: for every nonempty point list and every padding factor the
region builder returns exactly 4 polygon vertices forming the
axis-aligned rectangle centered at the center of the input bounding box
with the bounding box dimensions multiplied by the padding factor; a
single input point yields the degenerate zero-area rectangle (all four
vertices equal to the point, rounded width and height 0) without any
error. -/
theorem createRegion_rectangle :
    (∀ (points : List Pt) (f : ℚ), points ≠ [] →
      (createRegionFromPoints points f).points.length = 4 ∧
      (createRegionFromPoints points f).points =
        [ ⟨(listMin (points.map Pt.x) + listMax (points.map Pt.x)) / 2
              - (listMax (points.map Pt.x) - listMin (points.map Pt.x)) * f / 2
          , (listMin (points.map Pt.y) + listMax (points.map Pt.y)) / 2
              - (listMax (points.map Pt.y) - listMin (points.map Pt.y)) * f / 2⟩
        , ⟨(listMin (points.map Pt.x) + listMax (points.map Pt.x)) / 2
              + (listMax (points.map Pt.x) - listMin (points.map Pt.x)) * f / 2
          , (listMin (points.map Pt.y) + listMax (points.map Pt.y)) / 2
              - (listMax (points.map Pt.y) - listMin (points.map Pt.y)) * f / 2⟩
        , ⟨(listMin (points.map Pt.x) + listMax (points.map Pt.x)) / 2
              + (listMax (points.map Pt.x) - listMin (points.map Pt.x)) * f / 2
          , (listMin (points.map Pt.y) + listMax (points.map Pt.y)) / 2
              + (listMax (points.map Pt.y) - listMin (points.map Pt.y)) * f / 2⟩
        , ⟨(listMin (points.map Pt.x) + listMax (points.map Pt.x)) / 2
              - (listMax (points.map Pt.x) - listMin (points.map Pt.x)) * f / 2
          , (listMin (points.map Pt.y) + listMax (points.map Pt.y)) / 2
              + (listMax (points.map Pt.y) - listMin (points.map Pt.y)) * f / 2⟩ ]) ∧
    (∀ (p : Pt) (f : ℚ),
      (createRegionFromPoints [p] f).points = [p, p, p, p] ∧
      (createRegionFromPoints [p] f).width = 0 ∧
      (createRegionFromPoints [p] f).height = 0) := by
  constructor
  · intro points f _
    refine ⟨rfl, ?_⟩
    simp only [createRegionFromPoints, List.cons.injEq, Pt.mk.injEq, and_true]
    and_intros <;> first | rfl | ring
  · intro p f
    refine ⟨?_, ?_, ?_⟩
    · simp only [createRegionFromPoints, listMin, listMax, List.map, List.foldl,
        List.cons.injEq, Pt.mk.injEq, and_true]
      and_intros <;> first | rfl | ring
    · simp [createRegionFromPoints, listMin, listMax]
    · simp [createRegionFromPoints, listMin, listMax]

/-- C10 witness: `createRegion_rectangle` applied to a concrete two-point
list. -/
theorem createRegion_rectangle_witness :
    (createRegionFromPoints [⟨0, 0⟩, ⟨4, 2⟩] 1.5).points.length = 4 :=
  (createRegion_rectangle.1 [⟨0, 0⟩, ⟨4, 2⟩] 1.5 (by simp)).1

/-- Core computation of radial inflation: scaling the offset vector
(dx, dy) by (d + pad) / d where d is its Euclidean length moves the
point to distance d + pad from the center. -/
lemma radial_dist (cx cy dx dy pad : ℝ) (hd : 0 < Real.sqrt (dx * dx + dy * dy))
    (hpad : 0 ≤ pad) :
    Real.sqrt
      ((cx + dx * ((Real.sqrt (dx * dx + dy * dy) + pad) / Real.sqrt (dx * dx + dy * dy)) - cx) *
        (cx + dx * ((Real.sqrt (dx * dx + dy * dy) + pad) / Real.sqrt (dx * dx + dy * dy)) - cx) +
       (cy + dy * ((Real.sqrt (dx * dx + dy * dy) + pad) / Real.sqrt (dx * dx + dy * dy)) - cy) *
        (cy + dy * ((Real.sqrt (dx * dx + dy * dy) + pad) / Real.sqrt (dx * dx + dy * dy)) - cy)) =
      Real.sqrt (dx * dx + dy * dy) + pad := by
  set d := Real.sqrt (dx * dx + dy * dy) with hdd
  have hs : (0:ℝ) ≤ dx * dx + dy * dy :=
    add_nonneg (mul_self_nonneg dx) (mul_self_nonneg dy)
  have hf : 0 ≤ (d + pad) / d := div_nonneg (by linarith) hd.le
  have key : (cx + dx * ((d + pad) / d) - cx) * (cx + dx * ((d + pad) / d) - cx) +
      (cy + dy * ((d + pad) / d) - cy) * (cy + dy * ((d + pad) / d) - cy) =
      (dx * dx + dy * dy) * (((d + pad) / d) * ((d + pad) / d)) := by ring
  rw [key, Real.sqrt_mul hs, Real.sqrt_mul_self_eq_abs, abs_of_nonneg hf, ← hdd]
  rw [mul_comm, div_mul_cancel₀ _ (ne_of_gt hd)]

/-- The unrounded inflated vertex sits at distance (old distance + pad)
from the center. -/
lemma expandVertex_dist (c v : RPoint) (pad : ℝ) (hd : 0 < ptDist v c) (hpad : 0 ≤ pad) :
    ptDist (expandVertex c pad v) c = ptDist v c + pad := by
  have h := radial_dist c.x c.y (v.x - c.x) (v.y - c.y) pad hd hpad
  simpa [ptDist, expandVertex] using h

/-- Euclidean distance is symmetric. -/
lemma ptDist_symm (a b : RPoint) : ptDist a b = ptDist b a := by
  simp only [ptDist]
  congr 1
  ring

/-- Triangle inequality for the Euclidean plane distance, via the
complex absolute value. -/
lemma ptDist_triangle (a b c : RPoint) : ptDist a c ≤ ptDist a b + ptDist b c := by
  have e : ∀ p q : RPoint, ptDist p q = Complex.abs ⟨p.x - q.x, p.y - q.y⟩ := by
    intro p q
    simp only [ptDist]
    rw [Complex.abs_apply, Complex.normSq_mk]
  rw [e, e, e]
  have h : (⟨a.x - c.x, a.y - c.y⟩ : ℂ) =
      (⟨a.x - b.x, a.y - b.y⟩ : ℂ) + (⟨b.x - c.x, b.y - c.y⟩ : ℂ) := by
    apply Complex.ext <;> simp
  rw [h]
  exact Complex.abs.add_le _ _

/-- Reverse triangle inequality for `ptDist`. -/
lemma ptDist_sub_le (r e c : RPoint) : |ptDist r c - ptDist e c| ≤ ptDist r e := by
  rw [abs_sub_le_iff]
  constructor
  · have h := ptDist_triangle r e c
    linarith
  · have h := ptDist_triangle e r c
    have hs : ptDist e r = ptDist r e := ptDist_symm e r
    linarith

/-- Rounding both coordinates moves a point by at most half the diagonal
of a unit pixel. -/
lemma roundPoint_dist (p : RPoint) : ptDist (roundPoint p) p ≤ Real.sqrt 2 / 2 := by
  have hx : |((round p.x : ℤ) : ℝ) - p.x| ≤ 1 / 2 := by
    rw [abs_sub_comm]
    exact abs_sub_round p.x
  have hy : |((round p.y : ℤ) : ℝ) - p.y| ≤ 1 / 2 := by
    rw [abs_sub_comm]
    exact abs_sub_round p.y
  have h1 : (((round p.x : ℤ) : ℝ) - p.x) * (((round p.x : ℤ) : ℝ) - p.x) ≤ 1 / 4 := by
    have := mul_le_mul hx hx (abs_nonneg _) (by norm_num : (0:ℝ) ≤ 1 / 2)
    rw [abs_mul_abs_self] at this
    linarith
  have h2 : (((round p.y : ℤ) : ℝ) - p.y) * (((round p.y : ℤ) : ℝ) - p.y) ≤ 1 / 4 := by
    have := mul_le_mul hy hy (abs_nonneg _) (by norm_num : (0:ℝ) ≤ 1 / 2)
    rw [abs_mul_abs_self] at this
    linarith
  have hhalf : Real.sqrt (1 / 2) = Real.sqrt 2 / 2 := by
    rw [one_div, Real.sqrt_inv, inv_eq_one_div,
      div_eq_div_iff (ne_of_gt (Real.sqrt_pos.mpr (by norm_num : (0:ℝ) < 2)))
        (by norm_num : (2:ℝ) ≠ 0),
      one_mul, Real.mul_self_sqrt (by norm_num : (0:ℝ) ≤ 2)]
  calc ptDist (roundPoint p) p
      ≤ Real.sqrt (1 / 2) := by
        apply Real.sqrt_le_sqrt
        simp only [roundPoint]
        linarith
    _ = Real.sqrt 2 / 2 := hhalf

/-- C6: for every polygon, padding amount p at least 0 and vertex v not
coinciding with the vertex centroid, inflation moves v radially outward
by the constant absolute amount p: the exact (pre-rounding) new vertex
sits at distance (old centroid distance + p) from the original centroid,
and the implemented vertex (with its `Math.round` to integer pixels)
satisfies the same equation within epsilon = sqrt 2 / 2, the half
diagonal of one pixel. -/
theorem expandVertex_radial_distance (points : List RPoint) (pad : ℝ) (v : RPoint)
    (hv : v ∈ points) (hd : 0 < ptDist v (centroidR points)) (hpad : 0 ≤ pad) :
    expandPolygonR points pad =
      points.map (fun p => roundPoint (expandVertex (centroidR points) pad p)) ∧
    ptDist (expandVertex (centroidR points) pad v) (centroidR points)
      = ptDist v (centroidR points) + pad ∧
    |ptDist (roundPoint (expandVertex (centroidR points) pad v)) (centroidR points)
      - (ptDist v (centroidR points) + pad)| ≤ Real.sqrt 2 / 2 := by
  have h1 := expandVertex_dist (centroidR points) v pad hd hpad
  refine ⟨rfl, h1, ?_⟩
  have h2 := ptDist_sub_le (roundPoint (expandVertex (centroidR points) pad v))
    (expandVertex (centroidR points) pad v) (centroidR points)
  rw [h1] at h2
  exact h2.trans (roundPoint_dist _)

/-- C6 witness: `expandVertex_radial_distance` on the segment from
(0, 0) to (2, 0) with padding 3: the vertex (0, 0) is at distance 1 from
the centroid (1, 0) and its unrounded inflation lands at distance 1 + 3. -/
theorem expandVertex_radial_distance_witness :
    (0:ℝ) < ptDist ⟨0, 0⟩ (centroidR [⟨0, 0⟩, ⟨2, 0⟩]) ∧
    ptDist (expandVertex (centroidR [⟨0, 0⟩, ⟨2, 0⟩]) 3 ⟨0, 0⟩) (centroidR [⟨0, 0⟩, ⟨2, 0⟩])
      = ptDist ⟨0, 0⟩ (centroidR [⟨0, 0⟩, ⟨2, 0⟩]) + 3 := by
  have hone : ptDist ⟨0, 0⟩ (⟨1, 0⟩ : RPoint) = 1 := by
    show Real.sqrt ((0 - 1) * (0 - 1) + (0 - 0) * (0 - 0)) = 1
    rw [show ((0:ℝ) - 1) * (0 - 1) + (0 - 0) * (0 - 0) = 1 from by norm_num]
    exact Real.sqrt_one
  have hc : centroidR [⟨0, 0⟩, ⟨2, 0⟩] = (⟨1, 0⟩ : RPoint) := by
    simp only [centroidR, List.foldl, List.length, RPoint.mk.injEq]
    norm_num
  have hd : (0:ℝ) < ptDist ⟨0, 0⟩ (centroidR [⟨0, 0⟩, ⟨2, 0⟩]) := by
    rw [hc, hone]
    norm_num
  exact ⟨hd, (expandVertex_radial_distance [⟨0, 0⟩, ⟨2, 0⟩] 3 ⟨0, 0⟩
    (List.mem_cons_self _ _) hd (by norm_num)).2.1⟩
